import Mathlib

/-! Verification of the RAG orchestration and session-state pipeline.

Shallow embedding of the core Python code of the `rpf-ai-core` repository:

* `llm/prompt_templates/template_parser.py` — locale-aware template lookup;
* `llm/prompt_templates/locales/en/rag.py` — the RAG prompt templates;
* `controllers/AIController.py` — dimension reconciliation, context retrieval,
  RAG prompt assembly;
* `controllers/ChatController.py` — conversation reconstruction and the
  chat-turn orchestrator with its RAG/non-RAG fallback;
* `services/chat.py` — message persistence and the session counter update;
* `vectordb/providers/QdrantDBProvider.py` — `create_collection` and the
  batched, retried `insert_many`;
* `pipelines/embed_and_upsert.py` — the upsert stage of the ingestion
  pipeline.

External collaborators (the OpenAI client, the Qdrant server, MongoDB) are
modelled as oracles passed in explicitly; Python truthiness (`if not x:`) is
modelled faithfully (`None` and the empty string / empty list are falsy).
-/

namespace RpfAiCore

/-- The `MessageRole` enum from `schemas/chat.py` (`user` / `assistant` / `system`). -/
inductive MessageRole where
  | user
  | assistant
  | system
deriving DecidableEq, Repr

/-- A role-tagged chat message as passed to the LLM chat API: the Python dict
`{"role": ..., "content": ...}` built by `AIController.build_rag_prompt` and
`ChatController._generate_ai_response`. -/
structure ChatMsg where
  role : String
  content : String
deriving DecidableEq, Repr

/-- Schema `RetrievedDocumentSchema` from `schemas/utils.py`: text plus relevance
score.  Scores are modelled as integers; no claim computes with them. -/
structure RetrievedDocumentSchema where
  text : String
  score : Int
deriving DecidableEq, Repr

/-- The part of `MessageResponse` (`dtos/chat.py`) the generation logic reads:
role and content of a persisted chat message. -/
structure MsgRec where
  role : MessageRole
  content : String
deriving DecidableEq, Repr

/-! ## Template parser (`llm/prompt_templates/template_parser.py`)

A locale prompt module (`llm.prompt_templates.locales.<locale>.<group>`)
either imports or not; when it imports it exposes a `PROMPTS` key table.
Rendering (`Template.substitute` / `str.format`) is orthogonal to the lookup
logic verified here, so templates are carried as already-rendered strings. -/

/-- The `PROMPTS` dictionary of one locale module: key → template string. -/
abbrev PromptsModule := List (String × String)

/-- Model of `TemplateParser.get_template` for a fixed group.  `locales` maps a locale
name to its prompt module when the module imports; a locale absent from
`locales` models `ImportError`.  The Python loop
`for locale in (self.language, self.default_language)` `continue`s **only** on
`ImportError`; once a module imports, a missing key logs an error and returns
`""` without consulting the default locale. -/
def get_template (locales : List (String × PromptsModule))
    (language defaultLanguage key : String) : String :=
  match locales.lookup language with
  | some prompts =>
    match prompts.lookup key with
    | some t => t
    | none => ""
  | none =>
    match locales.lookup defaultLanguage with
    | some prompts =>
      match prompts.lookup key with
      | some t => t
      | none => ""
    | none => ""

/-! ## RAG prompt templates (`llm/prompt_templates/locales/en/rag.py`) -/

/-- Template `PROMPTS["system_prompt"]` from `locales/en/rag.py` (lines joined by
newlines, as in the source). -/
def rag_system_prompt : String :=
  "You are a professional legal assistant AI, designed to provide information and guidance on legal matters.\n" ++
  "You will be provided with legal documents and resources related to the user\x27s query.\n" ++
  "Your responses must be based strictly on the provided legal documents and materials.\n" ++
  "You should disregard any documents that are not relevant to the user\x27s specific legal inquiry.\n" ++
  "If you cannot provide a definitive answer based on the available documents, you must:\n" ++
  "1. Clearly state that you cannot provide specific legal advice for their situation\n" ++
  "2. Recommend consulting with a qualified legal professional\n" ++
  "IMPORTANT: Never provide legal interpretations or advice beyond what is explicitly stated in the provided documents.\n" ++
  "Always include appropriate disclaimers when discussing legal matters.\n" ++
  "Maintain a professional, clear, and precise communication style.\n" ++
  "Generate responses in the same language as the user\x27s query.\n" ++
  "Focus on factual information and avoid speculative interpretations."

/-- Template `PROMPTS["document_prompt"]` rendered with `doc_num` and `chunk_text`. -/
def rag_document_prompt (doc_num : Nat) (chunk_text : String) : String :=
  "## Document No & Rank: " ++ toString doc_num ++ "\n### Content: " ++ chunk_text

/-- Template `PROMPTS["footer_prompt"]` rendered with `query`. -/
def rag_footer_prompt (query : String) : String :=
  "Based strictly on the provided legal documents above:\n" ++
  "1. If relevant information is found: Provide a clear, factual response while including appropriate legal disclaimers.\n" ++
  "2. If the information is insufficient or unclear: Acknowledge the limitations and recommend consulting with a qualified legal professional.\n" ++
  "3. For any response: Clearly distinguish between factual information from the documents and general legal information.\n" ++
  "Remember: This response is for informational purposes only and does not constitute legal advice.\n" ++
  "## Question:\n" ++ query ++ "\n## Answer:"

/-! ## Prompt assembly (`AIController.build_rag_prompt`) -/

/-- The `for idx, doc in enumerate(context_documents, start=1)` loop of
`build_rag_prompt`: one rendered document block per retrieved document,
1-based ranks starting at `idx`. -/
def render_context_parts (docs : List RetrievedDocumentSchema) (idx : Nat) : List String :=
  match docs with
  | [] => []
  | d :: ds => rag_document_prompt idx d.text :: render_context_parts ds (idx + 1)

/-- Model of `AIController.build_rag_prompt(query, context_documents,
conversation_history)`: system message from the locale template, history with
`role == "system"` entries excluded, final user message holding either the raw
query (no documents) or the concatenated document blocks followed by the
rendered footer. -/
def build_rag_prompt (query : String) (docs : List RetrievedDocumentSchema)
    (hist : List ChatMsg) : List ChatMsg :=
  let context_parts := render_context_parts docs 1
  let user_content :=
    if context_parts = [] then query
    else String.intercalate "\n\n" context_parts ++ "\n\n" ++ rag_footer_prompt query
  ChatMsg.mk "system" rag_system_prompt ::
    (hist.filter (fun m => m.role ≠ "system") ++ [ChatMsg.mk "user" user_content])

/-! ## Dimension reconciliation (`AIController.get_embedding_size`,
`AIController.validate_collection_dimension`) -/

/-- The embedding client as `AIController` probes it.
`has_embedding_size_attr` models `hasattr(client, "embedding_size")` (the
attribute may exist yet hold Python `None`, hence the separate `Option`);
`model_config_embedding_size` models `hasattr(client, "model_config")` with a
dict containing the key `"embedding_size"`.  `embed_text` is the embedding
oracle: `none` models Python `None` (failure); `some []` models an empty
(falsy) vector. -/
structure EmbeddingClient where
  has_embedding_size_attr : Bool
  embedding_size : Option Nat
  model_config_embedding_size : Option Nat
  embed_text : String → Option (List Int)

/-- The slice of `core/config.py` settings the retrieval path reads.
`EMBEDDING_MODEL_SIZE = none` models a falsy or unparseable value
(`int(...)` raising is caught and yields `None`). -/
structure Settings where
  EMBEDDING_MODEL_SIZE : Option Nat

/-- Model of `AIController.get_embedding_size`: the `embedding_size` attribute when
present (even if `None`), else the `model_config` dict entry, else the
settings fallback. -/
def get_embedding_size (ec : EmbeddingClient) (s : Settings) : Option Nat :=
  if ec.has_embedding_size_attr then ec.embedding_size
  else
    match ec.model_config_embedding_size with
    | some n => some n
    | none => s.EMBEDDING_MODEL_SIZE

/-- Shape of `collection_info.config.vectors` across Qdrant client versions:
a `VectorParams`-like object with an optional `size` attribute, a dict with an
optional direct `"size"` entry plus named-vector entries (each with an
optional `size` attribute), or a tuple whose first element has an optional
`size` attribute. -/
inductive QVectorsConfig where
  | obj (size : Option Nat)
  | dict (sizeKey : Option Nat) (named : List (String × Option Nat))
  | tup (elems : List (Option Nat))

/-- Shape of `collection_info.config`: `params.size` when `config.params.size` exists,
and the optional `vectors` member. -/
structure QConfig where
  params_size : Option Nat
  vectors : Option QVectorsConfig

/-- The collection description returned by
`vectordb_client.get_collection_info`, with the three structurally different
places `validate_collection_dimension` probes: the `config` member (methods 1
and 2) and the direct `vectors_config.size` / `vector_size` attributes
(method 3). -/
structure CollectionInfo where
  config : Option QConfig
  vectors_config_size : Option Nat
  vector_size : Option Nat

/-- Method 2 of the extraction: `config.vectors` as object / dict / tuple.
For a dict, a direct `"size"` entry wins; otherwise the first named vector
config is consulted. -/
def extract_vectors_dim : QVectorsConfig → Option Nat
  | .obj s => s
  | .dict sizeKey named =>
    match sizeKey with
    | some n => some n
    | none =>
      match named with
      | [] => none
      | (_, s) :: _ => s
  | .tup elems =>
    match elems with
    | [] => none
    | s :: _ => s

/-- The fixed-priority extraction chain of
`validate_collection_dimension` (lines 87-137): `config.params.size`, then
`config.vectors` (object / dict / named / tuple), then
`vectors_config.size`, then `vector_size`; `none` when every strategy fails
(extraction errors are caught and leave the dimension undetermined). -/
def extract_collection_dim (info : CollectionInfo) : Option Nat :=
  let m1 : Option Nat :=
    match info.config with
    | some cfg => cfg.params_size
    | none => none
  let m2 : Option Nat :=
    match info.config with
    | some cfg =>
      match cfg.vectors with
      | some vc => extract_vectors_dim vc
      | none => none
    | none => none
  ((m1.orElse fun _ => m2).orElse fun _ => info.vectors_config_size).orElse
    fun _ => info.vector_size

/-- Outcome of `vectordb_client.search_by_vector`: results, a store-reported
dimension-mismatch error (its message matches the `"expected dim"` pattern),
or any other raised error. -/
inductive SearchOutcome where
  | ok (results : List RetrievedDocumentSchema)
  | dimError (expected got : Option Nat)
  | otherError

/-- Environment of one retrieval: the vector store and embedding client as
`AIController.retrieve_context` observes them.  `collection_info = none`
covers both a falsy description and `get_collection_info` raising (either way
the collection dimension stays undetermined and the outer handler of
`validate_collection_dimension` reports `(True, None, embedding_dim)`). -/
structure RetrieveEnv where
  is_collection_exist : Bool
  collection_info : Option CollectionInfo
  embedding_client : EmbeddingClient
  settings : Settings
  search : List Int → Nat → SearchOutcome

/-- Model of `AIController.validate_collection_dimension`: embedding dimension unknown
→ `(False, None, None)`; collection dimension unknown → `(True, None, dim)`
(search allowed to proceed); both known → compare. -/
def validate_collection_dimension (env : RetrieveEnv) : Bool × Option Nat × Option Nat :=
  match get_embedding_size env.embedding_client env.settings with
  | none => (false, none, none)
  | some embedding_dim =>
    let collection_dim : Option Nat :=
      match env.collection_info with
      | none => none
      | some info => extract_collection_dim info
    match collection_dim with
    | none => (true, none, some embedding_dim)
    | some c => (decide (c = embedding_dim), some c, some embedding_dim)

/-- Result of `retrieve_context`, instrumented with which external calls the
executed path performed: `embedCalled` records whether
`embedding_client.embed_text` was invoked and `searchCalled` whether
`vectordb_client.search_by_vector` was; the instrumentation does not alter
the returned documents. -/
structure RetrieveResult where
  docs : List RetrievedDocumentSchema
  embedCalled : Bool
  searchCalled : Bool
deriving DecidableEq, Repr

/-- Model of `AIController.retrieve_context(query, collection_name, max_results)`:
missing collection → empty; dimension mismatch with **both** dimensions known
→ empty before embedding; failed or empty query embedding → empty; actual
embedding length differing from a known (truthy) expected dimension → empty;
otherwise search, degrading every search error to empty (a store dimension
error is parsed and logged, any other error is re-raised into the outer
handler which also returns empty). -/
def retrieve_context (env : RetrieveEnv) (query : String) (max_results : Nat) :
    RetrieveResult :=
  if ¬ env.is_collection_exist then ⟨[], false, false⟩
  else
    let v := validate_collection_dimension env
    let is_valid := v.1
    let collection_dim := v.2.1
    let embedding_dim := v.2.2
    if ¬ is_valid ∧ collection_dim.isSome ∧ embedding_dim.isSome then ⟨[], false, false⟩
    else
      match env.embedding_client.embed_text query with
      | none => ⟨[], true, false⟩
      | some vec =>
        if vec = [] then ⟨[], true, false⟩
        else
          let actual_dim := vec.length
          let dim_mismatch : Bool :=
            match embedding_dim with
            | some ed => decide (ed ≠ 0) && decide (actual_dim ≠ ed)
            | none => false
          if dim_mismatch then ⟨[], true, false⟩
          else
            match env.search vec max_results with
            | .ok results => if results = [] then ⟨[], true, true⟩ else ⟨results, true, true⟩
            | .dimError _ _ => ⟨[], true, true⟩
            | .otherError => ⟨[], true, true⟩

/-! ## Conversation reconstruction
(`ChatController._generate_ai_response`, lines 198-224) -/

/-- One history entry per user/assistant message, as built by both the
reconstruction loop (`conversation_history.insert(0, ...)`) and the non-RAG
fallback conversion loop; system-role messages are skipped by both. -/
def history_entry (m : MsgRec) : Option ChatMsg :=
  match m.role with
  | .user => some (ChatMsg.mk "user" m.content)
  | .assistant => some (ChatMsg.mk "assistant" m.content)
  | .system => none

/-- The history list a Python loop over chronological `msgs` appends. -/
def to_llm_history (msgs : List MsgRec) : List ChatMsg :=
  msgs.filterMap history_entry

/-- The `for msg in reversed(recent_messages)` loop: `msgs_rev` is the window
in reverse chronological order; `found` is `current_user_message` (set by the
first user-role message encountered); classified messages are prepended to
`hist`, so `hist` ends up chronological. -/
def reconstruct_go (msgs_rev : List MsgRec) (found : Option String)
    (hist : List ChatMsg) : Option String × List ChatMsg :=
  match msgs_rev with
  | [] => (found, hist)
  | m :: rest =>
    if found.isNone ∧ m.role = .user then reconstruct_go rest (some m.content) hist
    else
      match history_entry m with
      | some e => reconstruct_go rest found (e :: hist)
      | none => reconstruct_go rest found hist

/-- Conversation reconstruction over the recent window (chronological order),
including the Python-falsy fallback `if not current_user_message:` — taken
both when no user-role message exists (`None`) and when the selected user
message has empty content — which replaces the query with
`recent_messages[-1].content`. -/
def reconstruct (recent : List MsgRec) : String × List ChatMsg :=
  let r := reconstruct_go recent.reverse none []
  let q0 := r.1.getD ""
  if q0 = "" then (((recent.getLast?).map (fun m => m.content)).getD "", r.2)
  else (q0, r.2)

/-! ## Chat orchestrator (`ChatController.chat`,
`ChatController._generate_ai_response`) -/

/-- The fixed user-safe apology string of `ChatController`. -/
def apology : String :=
  "I apologize, but I\x27m having trouble generating a response right now. Please try again."

/-- The hard-coded system message of the non-RAG fallback path
(`_generate_ai_response`, lines 264-270; two source fragments concatenated). -/
def plain_system_content : String :=
  "You are a professional AI assistant. Be clear, accurate, and helpful. " ++
  "Prefer concise answers; include specifics when useful. If unsure, say so rather than guessing."

/-- The plain (non-RAG) prompt: fixed system message followed by the recent
window converted to user/assistant entries. -/
def plain_llm_messages (recent : List MsgRec) : List ChatMsg :=
  ChatMsg.mk "system" plain_system_content :: to_llm_history recent

/-- Environment of one generation: whether an `AIController` was constructed,
whether `should_use_rag` reports the collection usable, the awaited RAG
collaborator (`generate_rag_response`; `Except.error` models an exception
reaching the `except` of the orchestrator at line 254), and the `GenerationPort`
used on the fallback path (`generation_client.chat`; `Except.error` models a
raised exception, an `ok` result may be the empty string). -/
structure GenEnv where
  has_ai_controller : Bool
  should_use_rag : Bool
  rag_generate : String → List ChatMsg → Except Unit String
  fallback_chat : List ChatMsg → Except Unit String

/-- Model of `ChatService.get_recent_messages(session_id, count)`: sort descending by
creation time, take `count`, reverse back to chronological order.  `msgs` is
the chronological message log of the session. -/
def get_recent_messages (msgs : List MsgRec) (count : Nat) : List MsgRec :=
  (msgs.reverse.take count).reverse

/-- Model of `ChatController._generate_ai_response`: empty window → apology;
otherwise reconstruct the conversation; when an `AIController` exists and
`should_use_rag` holds, await the RAG collaborator and return its response,
catching any exception by falling through to the non-RAG path; the non-RAG
path calls the `GenerationPort` on the plain prompt and returns its result
unchecked, the outer handler turning a raised exception into the apology. -/
def generate_ai_response (env : GenEnv) (recent : List MsgRec) : String :=
  if recent = [] then apology
  else
    let r := reconstruct recent
    let rag_result : Option String :=
      if env.has_ai_controller then
        if env.should_use_rag then
          match env.rag_generate r.1 r.2 with
          | .ok resp => some resp
          | .error _ => none
        else none
      else none
    match rag_result with
    | some resp => resp
    | none =>
      match env.fallback_chat (plain_llm_messages recent) with
      | .ok resp => resp
      | .error _ => apology

/-- Result of one chat turn: the message log after both persistence steps and
the generated assistant content.  `success` mirrors `ChatResponse.success`:
in this embedding session resolution and persistence succeed, and
`_generate_ai_response` never raises (it catches internally), so the turn
completes. -/
structure TurnResult where
  log : List MsgRec
  assistant_content : String
  success : Bool
deriving DecidableEq, Repr

/-- The core of `ChatController.chat` after session resolution: persist the
user message, generate over the freshly loaded recent window (`count=5`),
persist the assistant message. -/
def chat_turn (env : GenEnv) (store : List MsgRec) (userText : String) : TurnResult :=
  let store1 := store ++ [MsgRec.mk .user userText]
  let resp := generate_ai_response env (get_recent_messages store1 5)
  let store2 := store1 ++ [MsgRec.mk .assistant resp]
  ⟨store2, resp, true⟩

/-! ## Message persistence and the session counter
(`ChatService.create_message`, `schemas/chat.py`) -/

/-- The session record fields `create_message` touches (`ChatSession` in
`schemas/chat.py`); timestamps are modelled as naturals. -/
structure SessionRec where
  message_count : Nat
  created_at : Nat
  updated_at : Nat
  last_activity : Nat
deriving DecidableEq, Repr

/-- A persisted chat message document. -/
structure MessageDoc where
  role : MessageRole
  content : String
  created_at : Nat
deriving DecidableEq, Repr

/-- Session record plus its message log. -/
structure ChatStore where
  session : SessionRec
  messages : List MessageDoc
deriving DecidableEq, Repr

/-- The single `update_one` document of `create_message`
(`{"$inc": {"message_count": 1}, "$set": {"last_activity": now,
"updated_at": now}}`): an increment of the **stored** counter value together
with the timestamp refresh, applied as one update. -/
def apply_message_update (s : SessionRec) (now : Nat) : SessionRec :=
  { s with message_count := s.message_count + 1, last_activity := now, updated_at := now }

/-- Model of `ChatService.create_message`: insert the message document, then apply the
single session update. -/
def create_message (st : ChatStore) (role : MessageRole) (content : String)
    (now : Nat) : ChatStore :=
  { session := apply_message_update st.session now,
    messages := st.messages ++ [MessageDoc.mk role content now] }

/-- A freshly created session (`ChatSession` defaults: `message_count = 0`,
all three timestamps set to the creation instant). -/
def fresh_session (t0 : Nat) : ChatStore :=
  ⟨⟨0, t0, t0, t0⟩, []⟩

/-- Appending a list of messages in order; each element is
`(role, content, append instant)`. -/
def append_messages (st : ChatStore) : List (MessageRole × String × Nat) → ChatStore
  | [] => st
  | a :: rest => append_messages (create_message st a.1 a.2.1 a.2.2) rest

/-! ## Qdrant provider (`QdrantDBProvider.create_collection`,
`QdrantDBProvider.insert_many`) and the ingestion upsert stage
(`JobarEmbeddingPipeline._upsert_records`) -/

/-- Stored configuration and contents of a collection: configured vector
dimension plus the ids of its stored records. -/
structure CollectionState where
  dim : Nat
  records : List Nat
deriving DecidableEq, Repr

/-- Model of `QdrantDBProvider.create_collection(collection_name, embedding_size,
do_reset)` acting on the state of the named collection (`none` = absent).
`extract_ok` says whether the configured size of the existing collection is
extractable from its description (the same multi-shape probing as elsewhere;
an extraction failure or a `get_collection_info` error leaves the collection
untouched and returns `False`).  When the extractable size differs from
`embedding_size` the collection is deleted and the recursive call
`create_collection(..., do_reset=False)` recreates it empty with the
requested size — that recursion is unrolled here, since after the delete the
collection no longer exists. -/
def create_collection (extract_ok : Bool) (embedding_size : Nat) (do_reset : Bool)
    (coll : Option CollectionState) : Bool × Option CollectionState :=
  let coll0 := if do_reset then none else coll
  match coll0 with
  | none => (true, some ⟨embedding_size, []⟩)
  | some c =>
    match (if extract_ok then some c.dim else none) with
    | some vector_size =>
      if vector_size ≠ embedding_size then (true, some ⟨embedding_size, []⟩)
      else (false, some c)
    | none => (false, some c)

/-- Outcome of the per-batch retry loop of `insert_many`: success (with the
list of backoff waits performed, in milliseconds), a permanent failure (the
whole function returns `False`), or the loop falling through without an
attempt (only reachable when `max_retries = 0`, in which case the batch is
silently skipped and the outer loop continues). -/
inductive BatchOutcome where
  | success (waits : List Nat)
  | permFail
  | fellThrough
deriving DecidableEq, Repr

/-- The `while retry_count < max_retries and not success` loop for one batch.
`ok attempt` says whether `client.upload_records` succeeds on the (0-based)
attempt `attempt`.  On the failure that makes `retry_count` reach
`max_retries` the whole upload reports failure; otherwise the loop sleeps
`2 ^ retry_count` seconds (recorded in milliseconds) and retries.  `fuel`
bounds the recursion; `max_retries` is always enough. -/
def run_batch_go (ok : Nat → Bool) (max_retries : Nat) :
    Nat → Nat → BatchOutcome
  | retry_count, fuel =>
    if retry_count < max_retries then
      if ok retry_count then .success []
      else
        let rc := retry_count + 1
        if max_retries ≤ rc then .permFail
        else
          match fuel with
          | 0 => .fellThrough
          | fuel' + 1 =>
            match run_batch_go ok max_retries rc fuel' with
            | .success ws => .success (1000 * 2 ^ rc :: ws)
            | o => o
    else .fellThrough

/-- The retry loop of one batch, started at `retry_count = 0`. -/
def run_batch (ok : Nat → Bool) (max_retries : Nat) : BatchOutcome :=
  run_batch_go ok max_retries 0 max_retries

/-- The outer batch loop of `insert_many` over batch indices.  Returns the
overall boolean and the sleeps performed (backoff waits plus the 500 ms
inter-batch pause after a successful non-final batch); a permanent batch
failure aborts with `False` immediately. -/
def insert_many_batches (ok : Nat → Nat → Bool) (max_retries : Nat) :
    List Nat → Bool × List Nat
  | [] => (true, [])
  | b :: bs =>
    match run_batch (ok b) max_retries with
    | .success ws =>
      let rest := insert_many_batches ok max_retries bs
      let pause : List Nat := if bs = [] then [] else [500]
      (rest.1, ws ++ pause ++ rest.2)
    | .permFail => (false, [])
    | .fellThrough => insert_many_batches ok max_retries bs

/-- Model of `QdrantDBProvider.insert_many` over `num_texts` records: missing
collection → `False`; otherwise `ceil(num_texts / batch_size)` batches,
each retried per `run_batch`.  `ok batch attempt` is the upload oracle. -/
def insert_many (collection_exists : Bool) (ok : Nat → Nat → Bool)
    (num_texts batch_size max_retries : Nat) : Bool × List Nat :=
  if ¬ collection_exists then (false, [])
  else
    let total_batches := (num_texts + batch_size - 1) / batch_size
    insert_many_batches ok max_retries (List.range total_batches)

/-- Model of `JobarEmbeddingPipeline._upsert_records`: calls `insert_many` with
`batch_size = upload_batch_size` (default 10) and `max_retries = 3`; a
`False` result raises `RuntimeError`, aborting the run (the subsequent
verification stage is never reached). -/
def upsert_records (collection_exists : Bool) (ok : Nat → Nat → Bool)
    (num_texts upload_batch_size : Nat) : Except String Unit :=
  if (insert_many collection_exists ok num_texts upload_batch_size 3).1 then .ok ()
  else .error "Failed to insert embeddings into Qdrant."

/-! ## Concrete environments used by witnesses and counterexamples -/

/-- An embedding client whose `embedding_size` attribute holds 1536. -/
def embedding_client_1536 : EmbeddingClient :=
  { has_embedding_size_attr := true, embedding_size := some 1536,
    model_config_embedding_size := none,
    embed_text := fun _ => some [1, 2] }

/-- A collection description whose `config.params.size` is 768. -/
def info_768 : CollectionInfo :=
  { config := some { params_size := some 768, vectors := none },
    vectors_config_size := none, vector_size := none }

/-- A retrieval environment with a hard, known dimension mismatch
(collection 768, embedding client 1536). -/
def env_known_mismatch : RetrieveEnv :=
  { is_collection_exist := true, collection_info := some info_768,
    embedding_client := embedding_client_1536, settings := ⟨none⟩,
    search := fun _ _ => .ok [⟨"doc", 9⟩] }

/-- An embedding client whose `embedding_size` attribute exists but holds
Python `None`, with no `model_config` entry; paired with settings whose
`EMBEDDING_MODEL_SIZE` is falsy/unparseable, its output dimension cannot be
determined.  Its `embed_text` succeeds. -/
def embedding_client_unknown_dim : EmbeddingClient :=
  { has_embedding_size_attr := true, embedding_size := none,
    model_config_embedding_size := none,
    embed_text := fun _ => some [3, 1, 4] }

/-- A retrieval environment in which the embedding dimension cannot be
determined; the query embedding succeeds and the store search returns one
document. -/
def env_unknown_embedding_dim : RetrieveEnv :=
  { is_collection_exist := true, collection_info := none,
    embedding_client := embedding_client_unknown_dim, settings := ⟨none⟩,
    search := fun _ _ => .ok [⟨"flood report", 5⟩] }

/-- A generation environment whose RAG collaborator raises and whose
fallback `GenerationPort` answers with a fixed text. -/
def env_rag_throws : GenEnv :=
  { has_ai_controller := true, should_use_rag := true,
    rag_generate := fun _ _ => .error (),
    fallback_chat := fun _ => .ok "plain answer" }

/-- A generation environment with no RAG support whose fallback
`GenerationPort` returns the empty string. -/
def env_fallback_empty : GenEnv :=
  { has_ai_controller := false, should_use_rag := false,
    rag_generate := fun _ _ => .error (),
    fallback_chat := fun _ => .ok "" }

/-- A generation environment with no RAG support whose fallback
`GenerationPort` raises. -/
def env_fallback_throws : GenEnv :=
  { has_ai_controller := false, should_use_rag := false,
    rag_generate := fun _ _ => .error (),
    fallback_chat := fun _ => .error () }

/-! # Theorems -/

/-- Claim C2: for every collection whose configured vector dimension is known
and differs from the known embedding dimension, the Context Retriever returns
an empty sequence and never issues the search call of the store (nor does it embed
the query: the guard fires before embedding). -/
theorem claim_C2_hard_mismatch_blocks_search (env : RetrieveEnv)
    (info : CollectionInfo) (q : String) (n cd ed : Nat)
    (hex : env.is_collection_exist = true)
    (hed : get_embedding_size env.embedding_client env.settings = some ed)
    (hinfo : env.collection_info = some info)
    (hcd : extract_collection_dim info = some cd)
    (hne : cd ≠ ed) :
    (retrieve_context env q n).docs = [] ∧
    (retrieve_context env q n).searchCalled = false := by
  simp only [retrieve_context, validate_collection_dimension, hex, hed, hinfo, hcd]
  simp [hne]

/-- Witness for C2 at a concrete environment (collection 768 vs embedding
client 1536). -/
theorem claim_C2_witness :
    (retrieve_context env_known_mismatch "flooding" 5).docs = [] ∧
    (retrieve_context env_known_mismatch "flooding" 5).searchCalled = false :=
  claim_C2_hard_mismatch_blocks_search env_known_mismatch info_768 "flooding" 5
    768 1536 rfl rfl rfl rfl (by decide)

/-- Claim C1 (counterexample): in a retrieval in which the output dimension of the
embedding model cannot be determined, the Dimension Reconciler does return
`isValid=false` with both dimensions unknown — but the Context Retriever does
**not** abort: here it embeds the query, issues the search, and
returns a non-empty sequence, contradicting the claim. -/
theorem claim_C1_counterexample :
    validate_collection_dimension env_unknown_embedding_dim = (false, none, none) ∧
    (retrieve_context env_unknown_embedding_dim "What caused flooding?" 5).embedCalled = true ∧
    (retrieve_context env_unknown_embedding_dim "What caused flooding?" 5).searchCalled = true ∧
    (retrieve_context env_unknown_embedding_dim "What caused flooding?" 5).docs =
      [⟨"flood report", 5⟩] := by
  decide

/-- Claim C1 (amended): when the embedding dimension cannot be determined the
Dimension Reconciler returns `isValid=false` with both dimensions unknown,
but the empty-return guard of the Context Retriever requires **both** dimensions
known, so it does not abort: it embeds the query and — when the embedding is
non-empty — issues the search, letting the remote error of the store
be the signal of truth. -/
theorem claim_C1_amended_no_abort (env : RetrieveEnv) (q : String) (n : Nat)
    (v : List Int)
    (hex : env.is_collection_exist = true)
    (hed : get_embedding_size env.embedding_client env.settings = none)
    (hemb : env.embedding_client.embed_text q = some v)
    (hv : v ≠ []) :
    validate_collection_dimension env = (false, none, none) ∧
    (retrieve_context env q n).embedCalled = true ∧
    (retrieve_context env q n).searchCalled = true := by
  have hval : validate_collection_dimension env = (false, none, none) := by
    simp only [validate_collection_dimension, hed]
  refine ⟨hval, ?_⟩
  simp only [retrieve_context, hex, hval, hemb]
  simp only [Option.isSome_none, Bool.false_eq_true, and_false, false_and, if_false,
    Bool.not_true, ite_false, if_neg hv]
  cases h : env.search v n with
  | ok results =>
    by_cases hr : results = [] <;> simp [hr]
  | dimError e g => simp
  | otherError => simp

/-- Witness for the amended C1 at the concrete
`env_unknown_embedding_dim`. -/
theorem claim_C1_amended_witness :
    validate_collection_dimension env_unknown_embedding_dim = (false, none, none) ∧
    (retrieve_context env_unknown_embedding_dim "q" 3).embedCalled = true ∧
    (retrieve_context env_unknown_embedding_dim "q" 3).searchCalled = true :=
  claim_C1_amended_no_abort env_unknown_embedding_dim "q" 3 [3, 1, 4] rfl rfl rfl
    (by decide)

/-- The document-block list indexes as the `enumerate(start=k)` of the source:
block `i` is the per-document template rendered at rank `k + i`. -/
theorem render_context_parts_get? (docs : List RetrievedDocumentSchema) (k i : Nat) :
    (render_context_parts docs k).get? i =
      (docs.get? i).map (fun d => rag_document_prompt (k + i) d.text) := by
  induction docs generalizing k i with
  | nil => simp [render_context_parts]
  | cons d ds ih =>
    cases i with
    | zero => simp [render_context_parts]
    | succ j =>
      have harith : k + 1 + j = k + (j + 1) := by omega
      rw [show render_context_parts (d :: ds) k =
            rag_document_prompt k d.text :: render_context_parts ds (k + 1) from rfl,
        List.get?_cons_succ, List.get?_cons_succ, ih (k + 1) j, harith]

/-- Claim C5: in every assembled prompt the rendered system message comes
first, history follows with `role=system` entries excluded and original order
preserved, and the user message with the query comes last; its content is the
raw query verbatim when there are no retrieved documents, and otherwise the
concatenation of per-document blocks rendered at 1-based ranks followed by
the footer-rendered query. -/
theorem claim_C5_prompt_assembly (query : String)
    (docs : List RetrievedDocumentSchema) (hist : List ChatMsg) :
    ∃ blocks : List String,
      build_rag_prompt query docs hist =
        ChatMsg.mk "system" rag_system_prompt ::
          (hist.filter (fun m => m.role ≠ "system") ++
            [ChatMsg.mk "user"
              (if docs = [] then query
               else String.intercalate "\n\n" blocks ++ "\n\n" ++
                 rag_footer_prompt query)]) ∧
      ∀ i : Nat, blocks.get? i =
        (docs.get? i).map (fun d => rag_document_prompt (i + 1) d.text) := by
  refine ⟨render_context_parts docs 1, ?_, ?_⟩
  · cases docs with
    | nil => simp [build_rag_prompt, render_context_parts]
    | cons d ds => simp [build_rag_prompt, render_context_parts]
  · intro i
    rw [render_context_parts_get?]
    have harith : 1 + i = i + 1 := by omega
    rw [harith]

/-- Claim C8 (counterexample): with the requested locale module present but
missing the key `"system_prompt"`, and the default locale containing it,
`get_template` returns `""` — neither the template of the default locale (the
per-key fallback the claim describes) nor a loud failure; and with the key
absent from both locales it still returns the value `""` instead of failing
loudly. -/
theorem claim_C8_counterexample :
    get_template [("fr", []), ("en", [("system_prompt", "SYS")])]
      "fr" "en" "system_prompt" = "" ∧
    get_template [("fr", []), ("en", [])] "fr" "en" "system_prompt" = "" ∧
    List.lookup "system_prompt" [("system_prompt", "SYS")] = some "SYS" := by
  decide

/-- Claim C8 (amended): a template found in the module of the requested locale is
returned; the default locale is consulted **only when the module of the requested locale
fails to load**, in which case its template for the key is returned;
a key absent from the first module that loads — even if the default locale
has it — and a key absent because no locale module loads both yield the
empty string (a logged error, not a raised configuration error). -/
theorem claim_C8_amended_lookup (locales : List (String × PromptsModule))
    (lang dflt key t : String) (m : PromptsModule) :
    (locales.lookup lang = some m → m.lookup key = some t →
      get_template locales lang dflt key = t) ∧
    (locales.lookup lang = some m → m.lookup key = none →
      get_template locales lang dflt key = "") ∧
    (locales.lookup lang = none → locales.lookup dflt = some m →
      m.lookup key = some t → get_template locales lang dflt key = t) ∧
    (locales.lookup lang = none → locales.lookup dflt = none →
      get_template locales lang dflt key = "") := by
  refine ⟨fun h1 h2 => ?_, fun h1 h2 => ?_, fun h1 h2 h3 => ?_, fun h1 h2 => ?_⟩
  · simp only [get_template, h1, h2]
  · simp only [get_template, h1, h2]
  · simp only [get_template, h1, h2, h3]
  · simp only [get_template, h1, h2]

/-- Witness for the amended C8 at concrete locale tables. -/
theorem claim_C8_amended_witness :
    get_template [("en", [("system_prompt", "SYS")])] "en" "en" "system_prompt" = "SYS" ∧
    get_template [("fr", []), ("en", [("system_prompt", "SYS")])]
      "fr" "en" "system_prompt" = "" ∧
    get_template [("en", [("system_prompt", "SYS")])] "fr" "en" "system_prompt" = "SYS" ∧
    get_template [] "fr" "en" "system_prompt" = "" := by
  refine ⟨?_, ?_, ?_, ?_⟩
  · exact (claim_C8_amended_lookup [("en", [("system_prompt", "SYS")])] "en" "en"
      "system_prompt" "SYS" [("system_prompt", "SYS")]).1 (by decide) (by decide)
  · exact (claim_C8_amended_lookup [("fr", []), ("en", [("system_prompt", "SYS")])]
      "fr" "en" "system_prompt" "SYS" []).2.1 (by decide) (by decide)
  · exact (claim_C8_amended_lookup [("en", [("system_prompt", "SYS")])] "fr" "en"
      "system_prompt" "SYS" [("system_prompt", "SYS")]).2.2.1 (by decide) (by decide)
      (by decide)
  · exact (claim_C8_amended_lookup [] "fr" "en" "system_prompt" "SYS" []).2.2.2
      (by decide) (by decide)

/-- The mapping `to_llm_history` distributes over append. -/
theorem to_llm_history_append (a b : List MsgRec) :
    to_llm_history (a ++ b) = to_llm_history a ++ to_llm_history b := by
  simp [to_llm_history]

/-- Once the current query is identified, the reconstruction loop only
prepends classified history entries: running it over the (reversed) remainder
accumulates the chronological history of that remainder in front of `hist`. -/
theorem reconstruct_go_found (l : List MsgRec) (c : String) (hist : List ChatMsg) :
    reconstruct_go l (some c) hist = (some c, to_llm_history l.reverse ++ hist) := by
  induction l generalizing hist with
  | nil => simp [reconstruct_go, to_llm_history]
  | cons m rest ih =>
    rw [show reconstruct_go (m :: rest) (some c) hist =
        (if (some c).isNone ∧ m.role = .user then reconstruct_go rest (some (m.content)) hist
         else
           match history_entry m with
           | some e => reconstruct_go rest (some c) (e :: hist)
           | none => reconstruct_go rest (some c) hist) from rfl]
    simp only [Option.isNone_some, Bool.false_eq_true, false_and, if_false]
    have hrev : to_llm_history (m :: rest).reverse =
        to_llm_history rest.reverse ++ to_llm_history [m] := by
      rw [List.reverse_cons, to_llm_history_append]
    cases he : history_entry m with
    | some e =>
      show reconstruct_go rest (some c) (e :: hist) = _
      rw [ih (e :: hist), hrev]
      simp [to_llm_history, he]
    | none =>
      show reconstruct_go rest (some c) hist = _
      rw [ih hist, hrev]
      simp [to_llm_history, he]

/-- Before any user-role message is seen, the loop over messages none of
which has role `user` accumulates their chronological history and leaves the
query unset. -/
theorem reconstruct_go_none_no_user (l : List MsgRec) (hist : List ChatMsg)
    (hnu : ∀ m ∈ l, m.role ≠ .user) :
    reconstruct_go l none hist = (none, to_llm_history l.reverse ++ hist) := by
  induction l generalizing hist with
  | nil => simp [reconstruct_go, to_llm_history]
  | cons m rest ih =>
    have hm : m.role ≠ .user := hnu m (List.mem_cons_self m rest)
    have hrest : ∀ x ∈ rest, x.role ≠ .user := fun x hx => hnu x (List.mem_cons_of_mem m hx)
    rw [show reconstruct_go (m :: rest) none hist =
        (if (none : Option String).isNone ∧ m.role = .user then
           reconstruct_go rest (some (m.content)) hist
         else
           match history_entry m with
           | some e => reconstruct_go rest none (e :: hist)
           | none => reconstruct_go rest none hist) from rfl]
    rw [if_neg (by simp [hm])]
    have hrev : to_llm_history (m :: rest).reverse =
        to_llm_history rest.reverse ++ to_llm_history [m] := by
      rw [List.reverse_cons, to_llm_history_append]
    cases he : history_entry m with
    | some e =>
      show reconstruct_go rest none (e :: hist) = _
      rw [ih (e :: hist) hrest, hrev]
      simp [to_llm_history, he]
    | none =>
      show reconstruct_go rest none hist = _
      rw [ih hist hrest, hrev]
      simp [to_llm_history, he]

/-- The state-passing loop processes an appended list by threading the state
of the first part into the second. -/
theorem reconstruct_go_append (a b : List MsgRec) (f : Option String)
    (hist : List ChatMsg) :
    reconstruct_go (a ++ b) f hist =
      reconstruct_go b (reconstruct_go a f hist).1 (reconstruct_go a f hist).2 := by
  induction a generalizing f hist with
  | nil => simp [reconstruct_go]
  | cons m rest ih =>
    rw [List.cons_append]
    rw [show reconstruct_go (m :: (rest ++ b)) f hist =
        (if f.isNone ∧ m.role = .user then reconstruct_go (rest ++ b) (some (m.content)) hist
         else
           match history_entry m with
           | some e => reconstruct_go (rest ++ b) f (e :: hist)
           | none => reconstruct_go (rest ++ b) f hist) from rfl]
    rw [show reconstruct_go (m :: rest) f hist =
        (if f.isNone ∧ m.role = .user then reconstruct_go rest (some (m.content)) hist
         else
           match history_entry m with
           | some e => reconstruct_go rest f (e :: hist)
           | none => reconstruct_go rest f hist) from rfl]
    by_cases hc : f.isNone ∧ m.role = .user
    · rw [if_pos hc, if_pos hc, ih]
    · rw [if_neg hc, if_neg hc]
      cases he : history_entry m with
      | some e =>
        show reconstruct_go (rest ++ b) f (e :: hist) =
          reconstruct_go b (reconstruct_go rest f (e :: hist)).1
            (reconstruct_go rest f (e :: hist)).2
        exact ih f (e :: hist)
      | none =>
        show reconstruct_go (rest ++ b) f hist =
          reconstruct_go b (reconstruct_go rest f hist).1 (reconstruct_go rest f hist).2
        exact ih f hist

/-- Claim C4 (amended): the Conversation Reconstructor takes as currentQuery
the content of the most recent user-role message **provided that content is
non-empty**, and builds history from the remaining user/assistant messages in
their original chronological order; when no user-role message exists — and
likewise when the selected user message has empty content, a
Python-falsy fallback the original claim does not cover — the chronologically
last message becomes the query (its content is used). -/
theorem claim_C4_amended_reconstruction :
    (∀ (pre post : List MsgRec) (u : MsgRec), u.role = .user → u.content ≠ "" →
      (∀ m ∈ post, m.role ≠ .user) →
      reconstruct (pre ++ u :: post) =
        (u.content, to_llm_history pre ++ to_llm_history post)) ∧
    (∀ (ms : List MsgRec) (m : MsgRec), (∀ x ∈ ms, x.role ≠ .user) →
      ms.getLast? = some m →
      reconstruct ms = (m.content, to_llm_history ms)) := by
  constructor
  · intro pre post u hu hc hpost
    have hpostrev : ∀ m ∈ post.reverse, m.role ≠ .user := by
      intro m hm
      exact hpost m (List.mem_reverse.mp hm)
    have hgo : reconstruct_go (pre ++ u :: post).reverse none [] =
        (some u.content, to_llm_history pre ++ to_llm_history post) := by
      rw [show (pre ++ u :: post).reverse = post.reverse ++ u :: pre.reverse by simp,
        reconstruct_go_append, reconstruct_go_none_no_user post.reverse [] hpostrev]
      simp only [List.reverse_reverse, List.append_nil]
      rw [show reconstruct_go (u :: pre.reverse) none (to_llm_history post) =
          (if (none : Option String).isNone ∧ u.role = .user then
             reconstruct_go pre.reverse (some (u.content)) (to_llm_history post)
           else
             match history_entry u with
             | some e => reconstruct_go pre.reverse none (e :: to_llm_history post)
             | none => reconstruct_go pre.reverse none (to_llm_history post)) from rfl]
      rw [if_pos ⟨rfl, hu⟩, reconstruct_go_found]
      simp
    unfold reconstruct
    rw [hgo]
    simp [hc]
  · intro ms m hnu hlast
    have hmsrev : ∀ x ∈ ms.reverse, x.role ≠ .user := by
      intro x hx
      exact hnu x (List.mem_reverse.mp hx)
    have hgo : reconstruct_go ms.reverse none [] = (none, to_llm_history ms) := by
      rw [reconstruct_go_none_no_user ms.reverse [] hmsrev]
      simp
    unfold reconstruct
    rw [hgo]
    simp [hlast]

/-- Claim C4 (counterexample): the window `[user:"", assistant:"B"]` is
non-empty and its most recent user-role message has content `""`, so the
claim requires `currentQuery = ""`; the Python-falsy check of the code
`if not current_user_message:` fires and replaces the query with the
content `"B"` of the chronologically last message. -/
theorem claim_C4_counterexample :
    reconstruct [⟨.user, ""⟩, ⟨.assistant, "B"⟩] = ("B", [⟨"assistant", "B"⟩]) ∧
    ("B" : String) ≠ "" := by
  decide

/-- Witness for the amended C4: the example window from the spec,
`[user:"A", assistant:"B", user:"C"]`, and a window with no user-role
message. -/
theorem claim_C4_amended_witness :
    reconstruct [⟨.user, "A"⟩, ⟨.assistant, "B"⟩, ⟨.user, "C"⟩] =
      ("C", [⟨"user", "A"⟩, ⟨"assistant", "B"⟩]) ∧
    reconstruct [⟨.assistant, "B"⟩] = ("B", [⟨"assistant", "B"⟩]) := by
  constructor
  · have h := claim_C4_amended_reconstruction.1
      [⟨.user, "A"⟩, ⟨.assistant, "B"⟩] [] ⟨.user, "C"⟩ rfl (by decide) (by decide)
    simpa [to_llm_history, history_entry] using h
  · have h := claim_C4_amended_reconstruction.2 [⟨.assistant, "B"⟩] ⟨.assistant, "B"⟩
      (by decide) rfl
    simpa [to_llm_history, history_entry] using h

/-- After the user message is persisted the freshly loaded recent window is
never empty. -/
theorem get_recent_messages_snoc_ne_nil (l : List MsgRec) (x : MsgRec) (n : Nat) :
    get_recent_messages (l ++ [x]) (n + 1) ≠ [] := by
  unfold get_recent_messages
  simp [List.reverse_append]

/-- Claim C3: when the RAG path raises during generation the orchestrator
catches it and falls back to the plain system+history+query prompt through
the `GenerationPort`; the turn completes with the assistant message equal to
the plain-fallback generation output, and the user message persisted in the
prior step is still in the log (in its position before the assistant
message). -/
theorem claim_C3_rag_exception_falls_back (env : GenEnv) (store : List MsgRec)
    (userText r : String)
    (hai : env.has_ai_controller = true)
    (huse : env.should_use_rag = true)
    (hthrow : ∀ q h, env.rag_generate q h = .error ())
    (hfb : env.fallback_chat
        (plain_llm_messages
          (get_recent_messages (store ++ [MsgRec.mk .user userText]) 5)) = .ok r) :
    chat_turn env store userText =
      ⟨store ++ [MsgRec.mk .user userText, MsgRec.mk .assistant r], r, true⟩ := by
  have hne : get_recent_messages (store ++ [MsgRec.mk .user userText]) 5 ≠ [] :=
    get_recent_messages_snoc_ne_nil store (MsgRec.mk .user userText) 4
  have hresp : generate_ai_response env
      (get_recent_messages (store ++ [MsgRec.mk .user userText]) 5) = r := by
    simp only [generate_ai_response, if_neg hne, hai, huse, hthrow, if_true, hfb]
  simp only [chat_turn, hresp]
  simp

/-- Witness for C3: a RAG-throwing environment over an empty session. -/
theorem claim_C3_witness :
    chat_turn env_rag_throws [] "hello" =
      ⟨[⟨.user, "hello"⟩, ⟨.assistant, "plain answer"⟩], "plain answer", true⟩ :=
  claim_C3_rag_exception_falls_back env_rag_throws [] "hello" "plain answer"
    rfl rfl (fun _ _ => rfl) rfl

/-- Claim C9 (counterexample): on the non-RAG fallback path a
`GenerationPort` call that returns the **empty** result is persisted as-is —
the claim requires the fixed apology string, but the code returns the
`GenerationPort` result unchecked (`return response`, line 292). -/
theorem claim_C9_counterexample :
    (chat_turn env_fallback_empty [] "hi").assistant_content = "" ∧
    apology ≠ "" := by
  decide

/-- Claim C9 (amended): on the non-RAG fallback path, if the
`GenerationPort` call raises, the generated response returned for persistence
is the fixed user-safe apology string and the error is not propagated (the
turn still completes); if the call returns a result — the empty string
included — that result is returned for persistence unchanged, not replaced by
the apology. -/
theorem claim_C9_amended_fallback (env env' : GenEnv) (store store' : List MsgRec)
    (t t' s : String)
    (h1 : env.has_ai_controller = false)
    (hfb1 : ∀ ms, env.fallback_chat ms = .error ())
    (h2 : env'.has_ai_controller = false)
    (hfb2 : ∀ ms, env'.fallback_chat ms = .ok s) :
    (chat_turn env store t).assistant_content = apology ∧
    (chat_turn env store t).success = true ∧
    (chat_turn env' store' t').assistant_content = s ∧
    (chat_turn env' store' t').success = true := by
  have hne : get_recent_messages (store ++ [MsgRec.mk .user t]) 5 ≠ [] :=
    get_recent_messages_snoc_ne_nil store (MsgRec.mk .user t) 4
  have hne' : get_recent_messages (store' ++ [MsgRec.mk .user t']) 5 ≠ [] :=
    get_recent_messages_snoc_ne_nil store' (MsgRec.mk .user t') 4
  refine ⟨?_, rfl, ?_, rfl⟩
  · simp only [chat_turn, generate_ai_response, if_neg hne, h1, if_false, hfb1]
    simp
  · simp only [chat_turn, generate_ai_response, if_neg hne', h2, if_false, hfb2]
    simp

/-- Witness for the amended C9: a raising fallback port yields the apology, a
port answering the empty string yields the empty string. -/
theorem claim_C9_amended_witness :
    (chat_turn env_fallback_throws [] "hi").assistant_content = apology ∧
    (chat_turn env_fallback_throws [] "hi").success = true ∧
    (chat_turn env_fallback_empty [] "hi").assistant_content = "" ∧
    (chat_turn env_fallback_empty [] "hi").success = true :=
  claim_C9_amended_fallback env_fallback_throws env_fallback_empty [] [] "hi" "hi" ""
    rfl (fun _ => rfl) rfl (fun _ => rfl)

/-- Claim C6: with the default of 3 attempts, a single upsert batch that
fails twice and succeeds on the third attempt leaves `insert_many` reporting
overall success after backoff waits of 2^1 and 2^2 seconds, while a batch
that fails three times makes `insert_many` report failure and makes the
upsert stage of the pipeline abort the run with a `RuntimeError` rather than
partial success. -/
theorem claim_C6_upsert_retry (ok ok' : Nat → Nat → Bool) (n : Nat)
    (hn1 : 0 < n) (hn2 : n ≤ 10)
    (hA0 : ok 0 0 = false) (hA1 : ok 0 1 = false) (hA2 : ok 0 2 = true)
    (hB : ∀ a, a < 3 → ok' 0 a = false) :
    insert_many true ok n 10 3 = (true, [2000, 4000]) ∧
    insert_many true ok' n 10 3 = (false, []) ∧
    upsert_records true ok' n 10 = .error "Failed to insert embeddings into Qdrant." := by
  have htot : (n + 9) / 10 = 1 := by omega
  have hA2' : run_batch_go (ok 0) 3 2 1 = .success [] := by
    unfold run_batch_go
    simp [hA2]
  have hA1' : run_batch_go (ok 0) 3 1 2 = .success [4000] := by
    unfold run_batch_go
    simp [hA1, hA2']
  have hbatchA : run_batch (ok 0) 3 = .success [2000, 4000] := by
    unfold run_batch
    unfold run_batch_go
    simp [hA0, hA1']
  have hB2' : run_batch_go (ok' 0) 3 2 1 = .permFail := by
    unfold run_batch_go
    simp [hB 2 (by omega)]
  have hB1' : run_batch_go (ok' 0) 3 1 2 = .permFail := by
    unfold run_batch_go
    simp [hB 1 (by omega), hB2']
  have hbatchB : run_batch (ok' 0) 3 = .permFail := by
    unfold run_batch
    unfold run_batch_go
    simp [hB 0 (by omega), hB1']
  have hmanyB : insert_many true ok' n 10 3 = (false, []) := by
    simp [insert_many, htot, insert_many_batches, hbatchB]
  refine ⟨?_, hmanyB, ?_⟩
  · simp [insert_many, htot, insert_many_batches, hbatchA]
  · simp [upsert_records, hmanyB]

/-- Witness for C6 at `n = 5` with concrete upload schedules. -/
theorem claim_C6_witness :
    insert_many true (fun _ a => decide (a = 2)) 5 10 3 = (true, [2000, 4000]) ∧
    insert_many true (fun _ _ => false) 5 10 3 = (false, []) ∧
    upsert_records true (fun _ _ => false) 5 10 =
      .error "Failed to insert embeddings into Qdrant." :=
  claim_C6_upsert_retry (fun _ a => decide (a = 2)) (fun _ _ => false) 5
    (by decide) (by decide) rfl rfl rfl (fun _ _ => rfl)

/-- Each `create_message` keeps `created_at`, adds exactly one message, bumps
the stored counter by exactly one, and refreshes `last_activity`; folded over
a list of appends whose instants are not before the creation of the session. -/
theorem append_messages_invariant (l : List (MessageRole × String × Nat))
    (st : ChatStore)
    (ht : ∀ a ∈ l, st.session.created_at ≤ a.2.2)
    (hla : st.session.created_at ≤ st.session.last_activity) :
    (append_messages st l).session.created_at = st.session.created_at ∧
    (append_messages st l).session.message_count = st.session.message_count + l.length ∧
    (append_messages st l).messages.length = st.messages.length + l.length ∧
    (append_messages st l).session.created_at ≤
      (append_messages st l).session.last_activity := by
  induction l generalizing st with
  | nil =>
    exact ⟨rfl, rfl, rfl, hla⟩
  | cons a rest ih =>
    have hcre : (create_message st a.1 a.2.1 a.2.2).session.created_at =
        st.session.created_at := rfl
    have ht' : ∀ x ∈ rest, (create_message st a.1 a.2.1 a.2.2).session.created_at ≤ x.2.2 := by
      intro x hx
      rw [hcre]
      exact ht x (List.mem_cons_of_mem a hx)
    have hla' : (create_message st a.1 a.2.1 a.2.2).session.created_at ≤
        (create_message st a.1 a.2.1 a.2.2).session.last_activity := by
      rw [hcre]
      exact ht a (List.mem_cons_self a rest)
    have hstep := ih (create_message st a.1 a.2.1 a.2.2) ht' hla'
    rcases hstep with ⟨h1, h2, h3, h4⟩
    have happ : append_messages st (a :: rest) =
        append_messages (create_message st a.1 a.2.1 a.2.2) rest := rfl
    have hmsg : (create_message st a.1 a.2.1 a.2.2).messages.length =
        st.messages.length + 1 := by
      simp [create_message]
    have hcnt : (create_message st a.1 a.2.1 a.2.2).session.message_count =
        st.session.message_count + 1 := rfl
    refine ⟨by rw [happ, h1, hcre], ?_, ?_, h4⟩
    · rw [happ, h2, hcnt, List.length_cons]
      omega
    · rw [happ, h3, hmsg, List.length_cons]
      omega

/-- Claim C7: after appending `k` messages to a fresh session (each append at
or after the creation instant), `message_count = k`, the counter equals the
number of persisted messages, and `last_activity ≥ created_at`; moreover each
append is a single update that increments the **stored** counter value — two
consecutive updates from any stored state add exactly 2, so no increment is
lost — and sets `last_activity` in that same update. -/
theorem claim_C7_session_counter (t0 : Nat)
    (appends : List (MessageRole × String × Nat))
    (ht : ∀ a ∈ appends, t0 ≤ a.2.2) :
    (append_messages (fresh_session t0) appends).session.message_count =
      appends.length ∧
    (append_messages (fresh_session t0) appends).session.message_count =
      (append_messages (fresh_session t0) appends).messages.length ∧
    (append_messages (fresh_session t0) appends).session.created_at ≤
      (append_messages (fresh_session t0) appends).session.last_activity ∧
    (∀ (srec : SessionRec) (n1 n2 : Nat),
      (apply_message_update (apply_message_update srec n1) n2).message_count =
        srec.message_count + 2 ∧
      (apply_message_update srec n1).last_activity = n1) := by
  have h := append_messages_invariant appends (fresh_session t0) ht (le_refl _)
  rcases h with ⟨h1, h2, h3, h4⟩
  refine ⟨by rw [h2]; simp [fresh_session], by rw [h2, h3]; rfl, h4, ?_⟩
  intro srec n1 n2
  exact ⟨by show srec.message_count + 1 + 1 = _; omega, rfl⟩

/-- Witness for C7: two appends at instants 11 and 12 to a session created
at instant 10. -/
theorem claim_C7_witness :
    (append_messages (fresh_session 10)
      [(.user, "a", 11), (.assistant, "b", 12)]).session.message_count = 2 ∧
    (append_messages (fresh_session 10)
        [(.user, "a", 11), (.assistant, "b", 12)]).session.message_count =
      (append_messages (fresh_session 10)
        [(.user, "a", 11), (.assistant, "b", 12)]).messages.length ∧
    (append_messages (fresh_session 10)
        [(.user, "a", 11), (.assistant, "b", 12)]).session.created_at ≤
      (append_messages (fresh_session 10)
        [(.user, "a", 11), (.assistant, "b", 12)]).session.last_activity ∧
    (∀ (srec : SessionRec) (n1 n2 : Nat),
      (apply_message_update (apply_message_update srec n1) n2).message_count =
        srec.message_count + 2 ∧
      (apply_message_update srec n1).last_activity = n1) :=
  claim_C7_session_counter 10 [(.user, "a", 11), (.assistant, "b", 12)] (by decide)

/-- Claim C10: `create_collection` with `do_reset=False` on an existing
collection whose extractable configured dimension differs from the requested
embedding size deletes and recreates it — discarding its stored records — and
returns `True`; when the dimension matches, or cannot be extracted, the
collection is left unchanged and the call returns `False`. -/
theorem claim_C10_create_collection (c : CollectionState) (size : Nat) :
    (c.dim ≠ size →
      create_collection true size false (some c) = (true, some ⟨size, []⟩)) ∧
    (c.dim = size → create_collection true size false (some c) = (false, some c)) ∧
    create_collection false size false (some c) = (false, some c) := by
  refine ⟨fun h => ?_, fun h => ?_, ?_⟩
  · simp [create_collection, h]
  · simp [create_collection, h]
  · simp [create_collection]

/-- Witness for C10: an existing 768-dimension collection holding records
versus a requested size of 1536. -/
theorem claim_C10_witness :
    create_collection true 1536 false (some ⟨768, [0, 1]⟩) = (true, some ⟨1536, []⟩) ∧
    create_collection true 1536 false (some ⟨1536, [0, 1]⟩) =
      (false, some ⟨1536, [0, 1]⟩) ∧
    create_collection false 1536 false (some ⟨768, [0, 1]⟩) =
      (false, some ⟨768, [0, 1]⟩) :=
  ⟨(claim_C10_create_collection ⟨768, [0, 1]⟩ 1536).1 (by decide),
   (claim_C10_create_collection ⟨1536, [0, 1]⟩ 1536).2.1 rfl,
   (claim_C10_create_collection ⟨768, [0, 1]⟩ 1536).2.2⟩

end RpfAiCore
